import Mathlib

/-!
# Verification of the notification dispatch core

A shallow embedding of the notification dispatch and delivery-tracking
pipeline of the tea-commerce backend:

* `app/services/notification_service.py` — channel providers
  (`EmailProvider`, `WhatsAppProvider`, `SMSProvider`), the orchestrator
  (`NotificationService.send_notification`, `NotificationService._send_with_retry`);
* `app/routers/notifications.py` — the `/notifications/send` route
  (`send_notification`) and the queue sweep (`_process_queue_task`);
* `app/models/notification_models.py` — the persisted documents
  (`NotificationQueue`, `NotificationLog`) and the API request model
  (`NotificationRequest`).

Conventions of the embedding:

* wall-clock instants (`datetime`) are natural numbers (`Time`);
* Python dicts used as keyed result maps are association lists with
  in-place overwrite on key collision (`dictInsert`), matching dict
  assignment semantics (value replaced, key position kept);
* the opaque template payload `Dict[str, Any]` is an association list of
  strings — no claim inspects the values;
* network transports (SMTP, the Graph API post, the SMS gateway) and the
  external template engine are parameters of type `Except String _`:
  `.error e` stands for a raised exception with text `e`;
* provider wire behaviour, as observed by the retry loop, is a function
  from the attempt index to an `AttemptEffect` (a returned result dict or
  a raised exception); the real providers never consult the attempt
  number, so this is a generalisation of the source behaviour;
* MongoDB document ids are modelled by an opaque constant string.
-/

/-- Wall-clock instants (`datetime.utcnow()` values) as naturals. -/
abbrev Time := Nat

/-- `NotificationChannel` enum (`notification_service.py` / `notification_models.py`). -/
inductive NotificationChannel where
  | email
  | sms
  | whatsapp
  | push
deriving DecidableEq, Repr

/-- The string value of a channel (the `str`-enum value, used as dict key). -/
def NotificationChannel.value : NotificationChannel → String
  | .email => "email"
  | .sms => "sms"
  | .whatsapp => "whatsapp"
  | .push => "push"

/-- `NotificationStatus` enum (`notification_models.py`). -/
inductive NotificationStatus where
  | pending
  | sent
  | failed
  | scheduled
deriving DecidableEq, Repr

/-- `NotificationEvent` enum (`notification_service.py`; the enum in
`notification_models.py` is an 11-value subset with the same string values). -/
inductive NotificationEvent where
  | order_placed
  | order_confirmed
  | order_shipped
  | order_delivered
  | order_cancelled
  | payment_success
  | payment_failed
  | payment_pending
  | user_registered
  | user_login
  | password_reset
  | welcome_series
  | cart_abandoned
  | product_restock
  | contact_form
  | feedback_received
  | low_inventory
  | new_order_admin
deriving DecidableEq, Repr

/-- `NotificationPriority` enum. -/
inductive NotificationPriority where
  | low
  | medium
  | high
  | critical
deriving DecidableEq, Repr

/-- The `NotificationTemplate` dataclass of `notification_service.py`
(rendered subject/body content). -/
structure NotificationTemplate where
  subject : String
  body : String
  html_body : Option String := none
  «variables» : Option (List String) := none
deriving DecidableEq, Repr

/-- The `NotificationRequest` dataclass of `notification_service.py`.
The API model of the same name in `notification_models.py` has the same
fields except `template_override`.  `data` is the opaque template payload. -/
structure NotificationRequest where
  event : NotificationEvent
  channels : List NotificationChannel
  recipient : String
  data : List (String × String)
  priority : NotificationPriority := .medium
  scheduled_at : Option Time := none
  template_override : Option NotificationTemplate := none
deriving DecidableEq, Repr

/-- A provider result dict.  The providers return
`{"status": "sent", "provider": p, "recipient": r}` or
`{"status": "failed", "error": e, "provider": p}`; the retry loop returns
`{"status": "failed", "error": e, "attempts": n}` on exhaustion and the
orchestrator records `{"status": "failed", "error": "Provider not available"}`
for an unregistered channel.  Absent keys are `none`. -/
structure ProviderResult where
  status : String
  error : Option String := none
  provider : Option String := none
  recipient : Option String := none
  attempts : Option Nat := none
deriving DecidableEq, Repr

/-- What one call of `provider.send(request)` does, as observed by
`_send_with_retry`: either a result dict comes back, or an exception with
the given text is raised. -/
inductive AttemptEffect where
  | returns (r : ProviderResult)
  | raises (msg : String)
deriving DecidableEq, Repr

/-- `result.get("status") == "sent"` on a returned dict; a raised exception
is never a success. -/
def AttemptEffect.isSent : AttemptEffect → Bool
  | .returns r => r.status == "sent"
  | .raises _ => false

/-- The diagnostic the retry loop records for a non-`sent` attempt:
`result.get("error", "Unknown error")` for a returned dict, `str(e)` for a
raised exception. -/
def AttemptEffect.diag : AttemptEffect → String
  | .returns r => r.error.getD "Unknown error"
  | .raises msg => msg

/-- `self.retry_attempts` of `NotificationService`. -/
def retry_attempts : Nat := 3

/-- `self.retry_delay` of `NotificationService` (seconds slept between
attempts; the sleep has no observable effect in the embedding). -/
def retry_delay : Nat := 5

/-- The loop of `NotificationService._send_with_retry`:
`attempt` is the index of the next provider call, `remaining` the number of
loop iterations left, `lastError` the `last_error` variable.  Returns the
final result dict together with the number of provider calls made. -/
def sendWithRetryGo (p : Nat → AttemptEffect) (attempt : Nat) :
    Nat → Option String → ProviderResult × Nat
  | 0, lastError =>
      ({ status := "failed", error := lastError, attempts := some retry_attempts }, 0)
  | remaining + 1, _lastError =>
      match p attempt with
      | .returns r =>
          if r.status == "sent" then (r, 1)
          else
            let q := sendWithRetryGo p (attempt + 1) remaining
              (some (r.error.getD "Unknown error"))
            (q.1, q.2 + 1)
      | .raises msg =>
          let q := sendWithRetryGo p (attempt + 1) remaining (some msg)
          (q.1, q.2 + 1)

/-- `NotificationService._send_with_retry`, with the provider abstracted to
its per-attempt wire behaviour.  First component: the returned result dict;
second component: how many times `provider.send` was called. -/
def sendWithRetry (p : Nat → AttemptEffect) : ProviderResult × Nat :=
  sendWithRetryGo p 0 retry_attempts none

/-- Python dict assignment `d[k] = v`: replace the value in place if the key
is present (the embedding keeps at most one entry per key), append otherwise. -/
def dictInsert (k : String) (v : ProviderResult) :
    List (String × ProviderResult) → List (String × ProviderResult)
  | [] => [(k, v)]
  | (k', v') :: rest =>
      if k' = k then (k', v) :: rest else (k', v') :: dictInsert k v rest

/-- Dict lookup `d[k]` / `d.get(k)`. -/
def dlookup (k : String) : List (String × ProviderResult) → Option ProviderResult
  | [] => none
  | (k', v) :: rest => if k' = k then some v else dlookup k rest

/-- The provider registry `self.providers` together with each registered
provider's wire behaviour for the dispatch at hand.  `none` models an
unregistered channel (in the source registry, `push`). -/
abbrev ProvidersMap := NotificationChannel → Option (Nat → AttemptEffect)

/-- The outcome recorded for one channel inside
`NotificationService.send_notification`: the missing-provider dict for an
unregistered channel, otherwise the `_send_with_retry` result. -/
def chanResult (P : ProvidersMap) (c : NotificationChannel) : ProviderResult :=
  match P c with
  | none => { status := "failed", error := some "Provider not available" }
  | some p => (sendWithRetry p).1

/-- The `for channel in request.channels` loop of
`NotificationService.send_notification`, accumulating the `results` dict. -/
def sendLoop (P : ProvidersMap) :
    List NotificationChannel → List (String × ProviderResult) →
    List (String × ProviderResult)
  | [], d => d
  | c :: cs, d => sendLoop P cs (dictInsert c.value (chanResult P c) d)

/-- The aggregated dict returned by `NotificationService.send_notification`. -/
structure DispatchResult where
  event : NotificationEvent
  recipient : String
  priority : NotificationPriority
  results : List (String × ProviderResult)
  timestamp : Time
deriving DecidableEq, Repr

/-- `NotificationService.send_notification`: fan out over the requested
channels in order, one outcome per channel value, then aggregate. -/
def sendNotification (P : ProvidersMap) (now : Time) (req : NotificationRequest) :
    DispatchResult :=
  { event := req.event
    recipient := req.recipient
    priority := req.priority
    results := sendLoop P req.channels []
    timestamp := now }

/-- The `NotificationQueue` document of `notification_models.py`:
one scheduled notification, holding a single channel. -/
structure NotificationQueue where
  event : NotificationEvent
  channel : NotificationChannel
  recipient : String
  priority : NotificationPriority
  data : List (String × String) := []
  template_id : Option String := none
  scheduled_at : Time
  expires_at : Option Time := none
  status : NotificationStatus := .scheduled
  processed_at : Option Time := none
  error_message : Option String := none
  retry_count : Nat := 0
  created_at : Time
deriving DecidableEq, Repr

/-- The `NotificationLog` document of `notification_models.py`. -/
structure NotificationLog where
  event : NotificationEvent
  channel : NotificationChannel
  recipient : String
  status : NotificationStatus
  priority : NotificationPriority
  subject : Option String := none
  body : String
  data : List (String × String) := []
  template_id : Option String := none
  provider_response : Option ProviderResult := none
  error_message : Option String := none
  retry_count : Nat := 0
  scheduled_at : Option Time := none
  sent_at : Option Time := none
  created_at : Time
deriving DecidableEq, Repr

/-- `str(request.data)` used for the log body. -/
def dataToString (d : List (String × String)) : String :=
  toString d

/-- The JSON body of a `/notifications/send` call before pydantic
validation: `none` marks an absent field.  `scheduled_at`'s inner option is
the field's nullable value. -/
structure RawNotificationRequest where
  event : Option NotificationEvent
  channels : Option (List NotificationChannel)
  recipient : Option String
  data : Option (List (String × String))
  priority : Option NotificationPriority
  scheduled_at : Option (Option Time)
deriving DecidableEq, Repr

/-- Pydantic validation of the API `NotificationRequest` model
(`notification_models.py`, lines 166-173): `event`, `channels`, `recipient`
and `data` are required, `priority` defaults to `medium`, `scheduled_at` to
`None`.  No length constraint is declared on `channels` or `recipient`, so
an empty list or empty string passes validation. -/
def parseNotificationRequest (raw : RawNotificationRequest) :
    Except String NotificationRequest :=
  match raw.event, raw.channels, raw.recipient, raw.data with
  | some ev, some chs, some r, some d =>
      .ok { event := ev, channels := chs, recipient := r, data := d
            priority := raw.priority.getD .medium
            scheduled_at := raw.scheduled_at.getD none }
  | _, _, _, _ => .error "field required"

/-- The `NotificationResponse` API model. -/
structure NotificationResponse where
  success : Bool
  message : String
  notification_id : Option String := none
  results : List (String × ProviderResult) := []
deriving DecidableEq, Repr

/-- What one `/notifications/send` call does besides its response: the
queue document inserted (if any) and whether an immediate background
dispatch was enqueued. -/
structure RouteEffect where
  response : NotificationResponse
  queued : Option NotificationQueue
  dispatched : Bool
deriving DecidableEq, Repr

/-- The immediate-send branch of the route: no queue insert, a background
dispatch task is added. -/
def immediateRouteEffect : RouteEffect :=
  { response := { success := true
                  message := "Notification queued for immediate delivery" }
    queued := none
    dispatched := true }

/-- The response of the scheduling branch; the Mongo document id is opaque. -/
def scheduledResponse : NotificationResponse :=
  { success := true
    message := "Notification scheduled successfully"
    notification_id := some "queue-item-id" }

/-- The `/notifications/send` handler (`notifications.py`, `send_notification`):
if `scheduled_at` is present and strictly after `now`, insert one
`NotificationQueue` document built from the first channel
(`request.channels[0]` — an `IndexError` on an empty list is caught by the
handler's `except` and surfaced as a 500); otherwise add a background task
that dispatches immediately. -/
def send_notification_route (req : NotificationRequest) (now : Time) :
    Except String RouteEffect :=
  match req.scheduled_at with
  | some t =>
      if now < t then
        match req.channels with
        | [] => .error "Failed to send notification: list index out of range"
        | c :: _ =>
            .ok { response := scheduledResponse
                  queued := some { event := req.event
                                   channel := c
                                   recipient := req.recipient
                                   priority := req.priority
                                   data := req.data
                                   scheduled_at := t
                                   created_at := now }
                  dispatched := false }
      else .ok immediateRouteEffect
  | none => .ok immediateRouteEffect

/-- The full endpoint: pydantic validation (a 422 rejection surfaces as
`.error` before the handler body runs), then the handler. -/
def sendEndpoint (raw : RawNotificationRequest) (now : Time) :
    Except String RouteEffect :=
  match parseNotificationRequest raw with
  | .error e => .error e
  | .ok req => send_notification_route req now

/-- The single-channel service request the sweep builds from a due queue
entry (`_process_queue_task`, `service_request = ...`). -/
def queueServiceRequest (e : NotificationQueue) : NotificationRequest :=
  { event := e.event
    channels := [e.channel]
    recipient := e.recipient
    data := e.data
    priority := e.priority }

/-- The sweep's due-entry selection predicate
(`status == SCHEDULED and scheduled_at <= now`). -/
def isDue (e : NotificationQueue) (now : Time) : Bool :=
  decide (e.status = NotificationStatus.scheduled) && decide (e.scheduled_at ≤ now)

/-- The entries the sweep's query returns. -/
def dueEntries (entries : List NotificationQueue) (now : Time) :
    List NotificationQueue :=
  entries.filter (fun e => isDue e now)

/-- The per-entry body of `_process_queue_task`'s loop.  The dispatch result
is awaited but never inspected: the entry is unconditionally marked `sent`
with `processed_at` set, and a `sent` log document is inserted.  (The
handler's `except` branch — status `failed`, `error_message`,
`retry_count + 1` — runs only when an exception escapes the block, e.g. a
database failure; `send_notification` itself is total and converts provider
failures into returned dicts, so that branch is outside the pure model.)
Returns the updated entry, the inserted log and the dispatch result. -/
def processDueEntry (P : ProvidersMap) (e : NotificationQueue) (now : Time) :
    NotificationQueue × NotificationLog × DispatchResult :=
  let result := sendNotification P now (queueServiceRequest e)
  ({ e with status := .sent, processed_at := some now },
   { event := e.event
     channel := e.channel
     recipient := e.recipient
     status := .sent
     priority := e.priority
     body := dataToString e.data
     data := e.data
     sent_at := some now
     created_at := now },
   result)

/-- One sweep pass over the store before the purge: due entries are
processed (and produce a log), the rest are untouched. -/
def processPass (P : ProvidersMap) (entries : List NotificationQueue)
    (now : Time) : List (NotificationQueue × Option NotificationLog) :=
  entries.map (fun e =>
    if isDue e now then
      let r := processDueEntry P e now
      (r.1, some r.2.1)
    else (e, none))

/-- The sweep's final cleanup (`NotificationQueue.find({"expires_at":
{"$lt": now}}).delete()`): drop every entry whose `expires_at` is a time
strictly before `now`.  A `null`/absent `expires_at` does not match the
`$lt` comparison, so such entries are kept. -/
def purgeExpired (entries : List NotificationQueue) (now : Time) :
    List NotificationQueue :=
  entries.filter (fun e =>
    match e.expires_at with
    | some t => !decide (t < now)
    | none => true)

/-- `_process_queue_task`: process all due entries, then purge expired ones.
Returns the surviving queue store and the inserted logs. -/
def processQueue (P : ProvidersMap) (entries : List NotificationQueue)
    (now : Time) : List NotificationQueue × List NotificationLog :=
  let pass := processPass P entries now
  (purgeExpired (pass.map Prod.fst) now, pass.filterMap Prod.snd)

/-- The external effects reachable from `EmailProvider.send`'s `try` block:
template fetch/substitution (the external template engine) and the SMTP
conversation (connect, STARTTLS, login, send).  `.error e` is a raised
exception with text `e`. -/
structure EmailEffects where
  render : Except String NotificationTemplate
  smtp : Except String Unit

/-- The `try` body of `EmailProvider.send` (`notification_service.py`,
lines 102-134): render the template, build and send the MIME message over
SMTP, then return the success dict.  Any step may raise. -/
def emailBody (fx : EmailEffects) (req : NotificationRequest) :
    Except String ProviderResult := do
  let _tpl ← fx.render
  let _u ← fx.smtp
  pure { status := "sent", provider := some "email", recipient := some req.recipient }

/-- `EmailProvider.send`: the body wrapped in the catch-all
`except Exception as e: return {"status": "failed", "error": str(e),
"provider": "email"}`.  An `.error` result would be an uncaught exception
escaping the provider boundary. -/
def emailSend (fx : EmailEffects) (req : NotificationRequest) :
    Except String ProviderResult :=
  match emailBody fx req with
  | .ok r => .ok r
  | .error e => .ok { status := "failed", error := some e, provider := some "email" }

/-- The external effect of `WhatsAppProvider.send`'s `try` block: the Graph
API POST followed by `raise_for_status()` (the in-process template lookup is
total). -/
structure WhatsAppEffects where
  post : Except String Unit

/-- The `try` body of `WhatsAppProvider.send` (lines 248-285). -/
def whatsappBody (fx : WhatsAppEffects) (req : NotificationRequest) :
    Except String ProviderResult := do
  let _u ← fx.post
  pure { status := "sent", provider := some "whatsapp", recipient := some req.recipient }

/-- `WhatsAppProvider.send`: body plus catch-all converting a raised
exception into the failed dict. -/
def whatsappSend (fx : WhatsAppEffects) (req : NotificationRequest) :
    Except String ProviderResult :=
  match whatsappBody fx req with
  | .ok r => .ok r
  | .error e => .ok { status := "failed", error := some e, provider := some "whatsapp" }

/-- The external effect of `SMSProvider.send`'s `try` block (the gateway
call is a logged placeholder; the block's only fallible step is modelled as
one opaque effect). -/
structure SMSEffects where
  gateway : Except String Unit

/-- The `try` body of `SMSProvider.send` (lines 312-325). -/
def smsBody (fx : SMSEffects) (req : NotificationRequest) :
    Except String ProviderResult := do
  let _u ← fx.gateway
  pure { status := "sent", provider := some "sms", recipient := some req.recipient }

/-- `SMSProvider.send`: body plus catch-all. -/
def smsSend (fx : SMSEffects) (req : NotificationRequest) :
    Except String ProviderResult :=
  match smsBody fx req with
  | .ok r => .ok r
  | .error e => .ok { status := "failed", error := some e, provider := some "sms" }

/-- A wire behaviour whose every attempt returns the email success dict. -/
def alwaysSentWire : Nat → AttemptEffect :=
  fun _ => .returns
    { status := "sent", provider := some "email", recipient := some "a@x.com" }

/-- A registry shaped like the service's `self.providers`: `email`,
`whatsapp` and `sms` registered (here all succeeding on the wire), `push`
unregistered. -/
def exampleProviders : ProvidersMap :=
  fun c =>
    match c with
    | .push => none
    | _ => some alwaysSentWire

/-- A wire behaviour that raises on the first attempt and succeeds on the
second. -/
def flakyWire : Nat → AttemptEffect :=
  fun i =>
    if i = 0 then .raises "rate limited"
    else .returns { status := "sent", provider := some "email" }

/-- A wire behaviour that raises on every attempt. -/
def downWire : Nat → AttemptEffect :=
  fun _ => .raises "smtp down"

/-- A due queue entry whose single channel (`push`) has no registered
provider, so its dispatch outcome is `failed`. -/
def pushQueueEntry : NotificationQueue :=
  { event := .order_placed
    channel := .push
    recipient := "a@x.com"
    priority := .medium
    data := [("order_id", "O1")]
    scheduled_at := 3
    created_at := 1 }

/-- A queue entry already in status `sent`, with no expiry time. -/
def sentQueueEntry : NotificationQueue :=
  { event := .order_shipped
    channel := .email
    recipient := "a@x.com"
    priority := .medium
    scheduled_at := 2
    status := .sent
    processed_at := some 2
    created_at := 1 }

/-- A queue entry in status `sent` whose expiry time has passed by t = 10. -/
def expiredSentEntry : NotificationQueue :=
  { event := .order_placed
    channel := .email
    recipient := "b@x.com"
    priority := .high
    scheduled_at := 1
    expires_at := some 4
    status := .sent
    processed_at := some 2
    created_at := 0 }

theorem sendWithRetryGo_calls_le (p : Nat → AttemptEffect) :
    ∀ (r a : Nat) (le : Option String), (sendWithRetryGo p a r le).2 ≤ r := by
  intro r
  induction r with
  | zero => intro a le; simp [sendWithRetryGo]
  | succ n ih =>
    intro a le
    simp only [sendWithRetryGo]
    cases hp : p a with
    | returns rr =>
      by_cases hs : (rr.status == "sent") = true
      · simp only [hs, if_true]
        omega
      · simp only [Bool.not_eq_true] at hs
        simp only [hs, Bool.false_eq_true, if_false]
        have := ih (a + 1) (some (rr.error.getD "Unknown error"))
        omega
    | raises msg =>
      dsimp only
      have := ih (a + 1) (some msg)
      omega

theorem sendWithRetryGo_success (p : Nat → AttemptEffect) :
    ∀ (k r a : Nat) (le : Option String), k < r →
      (∀ i, i < k → (p (a + i)).isSent = false) →
      (p (a + k)).isSent = true →
      (sendWithRetryGo p a r le).1.status = "sent" ∧
        (sendWithRetryGo p a r le).2 = k + 1 := by
  intro k
  induction k with
  | zero =>
    intro r a le hr _hfail hsent
    obtain ⟨m, rfl⟩ : ∃ m, r = m + 1 := ⟨r - 1, by omega⟩
    rw [Nat.add_zero] at hsent
    cases hp : p a with
    | returns rr =>
      rw [hp] at hsent
      simp only [AttemptEffect.isSent] at hsent
      have hss : rr.status = "sent" := by simpa using hsent
      simp [sendWithRetryGo, hp, hsent, hss]
    | raises msg =>
      rw [hp] at hsent
      simp [AttemptEffect.isSent] at hsent
  | succ k ih =>
    intro r a le hr hfail hsent
    obtain ⟨m, rfl⟩ : ∃ m, r = m + 1 := ⟨r - 1, by omega⟩
    have h0 : (p a).isSent = false := by simpa using hfail 0 (by omega)
    have hfail' : ∀ i, i < k → (p (a + 1 + i)).isSent = false := by
      intro i hi
      have : a + 1 + i = a + (i + 1) := by omega
      rw [this]
      exact hfail (i + 1) (by omega)
    have hsent' : (p (a + 1 + k)).isSent = true := by
      have : a + 1 + k = a + (k + 1) := by omega
      rw [this]; exact hsent
    cases hp : p a with
    | returns rr =>
      rw [hp] at h0
      simp only [AttemptEffect.isSent] at h0
      simp only [sendWithRetryGo, hp, h0, Bool.false_eq_true, if_false]
      have := ih m (a + 1) (some (rr.error.getD "Unknown error")) (by omega) hfail' hsent'
      exact ⟨this.1, by omega⟩
    | raises msg =>
      simp only [sendWithRetryGo, hp]
      have := ih m (a + 1) (some msg) (by omega) hfail' hsent'
      exact ⟨this.1, by omega⟩

theorem sendWithRetryGo_allFail (p : Nat → AttemptEffect) :
    ∀ (r a : Nat) (le : Option String),
      (∀ i, i < r → (p (a + i)).isSent = false) →
      sendWithRetryGo p a r le =
        ({ status := "failed"
           error := if r = 0 then le else some ((p (a + r - 1)).diag)
           attempts := some retry_attempts }, r) := by
  intro r
  induction r with
  | zero => intro a le _h; simp [sendWithRetryGo]
  | succ n ih =>
    intro a le hfail
    have h0 : (p a).isSent = false := by simpa using hfail 0 (by omega)
    have hfail' : ∀ i, i < n → (p (a + 1 + i)).isSent = false := by
      intro i hi
      have : a + 1 + i = a + (i + 1) := by omega
      rw [this]
      exact hfail (i + 1) (by omega)
    cases hp : p a with
    | returns rr =>
      rw [hp] at h0
      simp only [AttemptEffect.isSent] at h0
      simp only [sendWithRetryGo, hp, h0, Bool.false_eq_true, if_false]
      rw [ih (a + 1) (some (rr.error.getD "Unknown error")) hfail']
      rcases Nat.eq_zero_or_pos n with hn | hn
      · subst hn
        simp [hp, AttemptEffect.diag]
      · have he : a + 1 + n - 1 = a + (n + 1) - 1 := by omega
        simp only [he]
        simp [Nat.pos_iff_ne_zero.mp hn]
    | raises msg =>
      simp only [sendWithRetryGo, hp]
      rw [ih (a + 1) (some msg) hfail']
      rcases Nat.eq_zero_or_pos n with hn | hn
      · subst hn
        simp [hp, AttemptEffect.diag]
      · have he : a + 1 + n - 1 = a + (n + 1) - 1 := by omega
        simp only [he]
        simp [Nat.pos_iff_ne_zero.mp hn]

theorem dlookup_dictInsert_self (k : String) (v : ProviderResult) :
    ∀ d, dlookup k (dictInsert k v d) = some v := by
  intro d
  induction d with
  | nil => simp [dictInsert, dlookup]
  | cons hd tl ih =>
    obtain ⟨k', v'⟩ := hd
    by_cases h : k' = k
    · subst h
      simp [dictInsert, dlookup]
    · simp [dictInsert, dlookup, h, ih]

theorem dlookup_dictInsert_ne (k k' : String) (v : ProviderResult)
    (h : k' ≠ k) : ∀ d, dlookup k (dictInsert k' v d) = dlookup k d := by
  intro d
  induction d with
  | nil => simp [dictInsert, dlookup, h]
  | cons hd tl ih =>
    obtain ⟨k'', v''⟩ := hd
    by_cases h2 : k'' = k'
    · subst h2
      simp [dictInsert, dlookup, h]
    · simp [dictInsert, dlookup, h2, ih]

theorem NotificationChannel.value_inj (a b : NotificationChannel)
    (h : a.value = b.value) : a = b := by
  cases a <;> cases b <;> first
    | rfl
    | exact absurd h (by simp [NotificationChannel.value])

/-- The outcome recorded at key `k` in the results dict is determined by the
occurrences of channels with value `k` in the channel list: the last one
wins (dict overwrite). -/
theorem dlookup_sendLoop (P : ProvidersMap) (k : String) :
    ∀ (cs : List NotificationChannel) (d : List (String × ProviderResult)),
      dlookup k (sendLoop P cs d) =
        match (cs.filter (fun c => c.value == k)).getLast? with
        | none => dlookup k d
        | some c => some (chanResult P c) := by
  intro cs
  induction cs with
  | nil => intro d; simp [sendLoop]
  | cons c cs ih =>
    intro d
    by_cases hc : c.value = k
    · have hf : (c :: cs).filter (fun c => c.value == k) =
          c :: cs.filter (fun c => c.value == k) := by
        simp [List.filter_cons, hc]
      rw [hf]
      show dlookup k (sendLoop P cs (dictInsert c.value (chanResult P c) d)) = _
      rw [ih]
      cases hfc : (cs.filter (fun c => c.value == k)).getLast? with
      | none =>
        have : cs.filter (fun c => c.value == k) = [] := by
          simpa using hfc
        rw [hc, dlookup_dictInsert_self]
        simp [this]
      | some c' =>
        have hne : cs.filter (fun c => c.value == k) ≠ [] := by
          intro hnil
          rw [hnil] at hfc
          simp at hfc
        obtain ⟨c'', tl, htl⟩ : ∃ x xs, cs.filter (fun c => c.value == k) = x :: xs :=
          List.exists_cons_of_ne_nil hne
        rw [htl]
        rw [htl] at hfc
        simp only [List.getLast?_cons_cons]
        rw [hfc]
    · have hf : (c :: cs).filter (fun c => c.value == k) =
          cs.filter (fun c => c.value == k) := by
        simp [List.filter_cons, hc]
      rw [hf]
      show dlookup k (sendLoop P cs (dictInsert c.value (chanResult P c) d)) = _
      rw [ih]
      cases (cs.filter (fun c => c.value == k)).getLast? with
      | none => exact dlookup_dictInsert_ne k c.value (chanResult P c) hc d
      | some c' => rfl

theorem dictInsert_map_fst (k : String) (v : ProviderResult) :
    ∀ d, (dictInsert k v d).map Prod.fst =
      if k ∈ d.map Prod.fst then d.map Prod.fst else d.map Prod.fst ++ [k] := by
  intro d
  induction d with
  | nil => simp [dictInsert]
  | cons hd tl ih =>
    obtain ⟨k', v'⟩ := hd
    by_cases h : k' = k
    · subst h
      simp [dictInsert]
    · have hne : ¬ k = k' := fun hk => h hk.symm
      simp only [dictInsert, if_neg h, List.map_cons, ih]
      by_cases hm : k ∈ tl.map Prod.fst
      · simp [hm, hne]
      · simp [hm, hne]

theorem dictInsert_length (k : String) (v : ProviderResult) :
    ∀ d, (dictInsert k v d).length =
      if k ∈ d.map Prod.fst then d.length else d.length + 1 := by
  intro d
  induction d with
  | nil => simp [dictInsert]
  | cons hd tl ih =>
    obtain ⟨k', v'⟩ := hd
    by_cases h : k' = k
    · subst h
      simp [dictInsert]
    · have hne : ¬ k = k' := fun hk => h hk.symm
      simp only [dictInsert, if_neg h, List.length_cons, ih, List.map_cons]
      by_cases hm : k ∈ tl.map Prod.fst
      · simp [hm, hne]
      · simp [hm, hne]

theorem sendLoop_map_fst_mem (P : ProvidersMap) (k : String) :
    ∀ (cs : List NotificationChannel) (d : List (String × ProviderResult)),
      (k ∈ (sendLoop P cs d).map Prod.fst ↔
        k ∈ d.map Prod.fst ∨ ∃ c ∈ cs, c.value = k) := by
  intro cs
  induction cs with
  | nil => intro d; simp [sendLoop]
  | cons c cs ih =>
    intro d
    show k ∈ (sendLoop P cs (dictInsert c.value (chanResult P c) d)).map Prod.fst ↔ _
    rw [ih, dictInsert_map_fst]
    by_cases hm : c.value ∈ d.map Prod.fst
    · simp only [hm, if_true, List.mem_cons]
      constructor
      · rintro (h | ⟨c', hc', rfl⟩)
        · exact Or.inl h
        · exact Or.inr ⟨c', Or.inr hc', rfl⟩
      · rintro (h | ⟨c', hc' | hc', rfl⟩)
        · exact Or.inl h
        · subst hc'; exact Or.inl hm
        · exact Or.inr ⟨c', hc', rfl⟩
    · simp only [hm, if_false, List.mem_append, List.mem_cons,
        List.not_mem_nil, or_false]
      constructor
      · rintro ((h | h) | ⟨c', hc', rfl⟩)
        · exact Or.inl h
        · exact Or.inr ⟨c, Or.inl rfl, h.symm⟩
        · exact Or.inr ⟨c', Or.inr hc', rfl⟩
      · rintro (h | ⟨c', hc' | hc', rfl⟩)
        · exact Or.inl (Or.inl h)
        · subst hc'; exact Or.inl (Or.inr rfl)
        · exact Or.inr ⟨c', hc', rfl⟩

theorem sendLoop_map_fst_nodup (P : ProvidersMap) :
    ∀ (cs : List NotificationChannel) (d : List (String × ProviderResult)),
      (d.map Prod.fst).Nodup → ((sendLoop P cs d).map Prod.fst).Nodup := by
  intro cs
  induction cs with
  | nil => intro d h; exact h
  | cons c cs ih =>
    intro d h
    show ((sendLoop P cs (dictInsert c.value (chanResult P c) d)).map Prod.fst).Nodup
    apply ih
    rw [dictInsert_map_fst]
    by_cases hm : c.value ∈ d.map Prod.fst
    · simpa [hm] using h
    · simp only [hm, if_false]
      rw [List.nodup_append]
      exact ⟨h, List.nodup_singleton _, by simpa using fun hc => hm hc⟩

theorem sendLoop_length_nodup (P : ProvidersMap) :
    ∀ (cs : List NotificationChannel) (d : List (String × ProviderResult)),
      (cs.map (fun c => c.value)).Nodup →
      (∀ c ∈ cs, c.value ∉ d.map Prod.fst) →
      (sendLoop P cs d).length = d.length + cs.length := by
  intro cs
  induction cs with
  | nil => intro d _ _; simp [sendLoop]
  | cons c cs ih =>
    intro d hnd hdisj
    have hcd : c.value ∉ d.map Prod.fst := hdisj c (List.mem_cons_self c cs)
    show (sendLoop P cs (dictInsert c.value (chanResult P c) d)).length = _
    rw [List.map_cons, List.nodup_cons] at hnd
    have hlen : (dictInsert c.value (chanResult P c) d).length = d.length + 1 := by
      rw [dictInsert_length]
      simp [hcd]
    have hkeys : (dictInsert c.value (chanResult P c) d).map Prod.fst =
        d.map Prod.fst ++ [c.value] := by
      rw [dictInsert_map_fst]
      simp [hcd]
    have hdisj' : ∀ c' ∈ cs, c'.value ∉
        (dictInsert c.value (chanResult P c) d).map Prod.fst := by
      intro c' hc'
      rw [hkeys]
      simp only [List.mem_append, List.mem_singleton]
      rintro (h | h)
      · exact hdisj c' (List.mem_cons_of_mem c hc') h
      · exact hnd.1 (h ▸ List.mem_map_of_mem (fun x => x.value) hc')
    rw [ih _ hnd.2 hdisj', hlen]
    simp [List.length_cons]
    omega

/-- **C5.**  For every channel with a registered provider, the retry policy
makes at most 3 provider calls; if the provider succeeds on attempt `k`
(0-indexed, `k < 3`), the outcome is the provider's `sent` dict after
exactly `k + 1` calls and no later attempt is made; if every attempt fails,
exactly 3 calls are made and the outcome is `failed`, carrying the last
attempt's diagnostic and the exhausted attempt count. -/
theorem C5_retry_policy (p : Nat → AttemptEffect) :
    (sendWithRetry p).2 ≤ 3 ∧
    (∀ k, k < 3 → (∀ i, i < k → (p i).isSent = false) → (p k).isSent = true →
      (sendWithRetry p).1.status = "sent" ∧ (sendWithRetry p).2 = k + 1) ∧
    ((∀ i, i < 3 → (p i).isSent = false) →
      (sendWithRetry p).1 =
        { status := "failed", error := some ((p 2).diag), attempts := some 3 } ∧
      (sendWithRetry p).2 = 3) := by
  refine ⟨sendWithRetryGo_calls_le p 3 0 none, ?_, ?_⟩
  · intro k hk hfail hsent
    have hf : ∀ i, i < k → (p (0 + i)).isSent = false := by
      intro i hi
      rw [Nat.zero_add]
      exact hfail i hi
    have hs : (p (0 + k)).isSent = true := by
      rw [Nat.zero_add]
      exact hsent
    exact sendWithRetryGo_success p k 3 0 none hk hf hs
  · intro hfail
    have hf : ∀ i, i < 3 → (p (0 + i)).isSent = false := by
      intro i hi
      rw [Nat.zero_add]
      exact hfail i hi
    have heq := sendWithRetryGo_allFail p 3 0 none hf
    have heq' : sendWithRetry p =
        ({ status := "failed", error := some ((p 2).diag)
           attempts := some retry_attempts }, 3) := by
      rw [sendWithRetry]
      show sendWithRetryGo p 0 3 none = _
      rw [heq]
      norm_num
    rw [heq']
    exact ⟨rfl, rfl⟩

/-- **C5, witness.**  The retry policy evaluated at a provider that raises
once then succeeds (two calls, `sent`), and at one that raises on every
attempt (three calls, `failed`, last diagnostic, attempt count 3). -/
theorem C5_retry_policy_witness :
    ((sendWithRetry flakyWire).1.status = "sent" ∧
      (sendWithRetry flakyWire).2 = 2) ∧
    ((sendWithRetry downWire).1 =
        { status := "failed", error := some "smtp down", attempts := some 3 } ∧
      (sendWithRetry downWire).2 = 3) := by
  constructor
  · exact (C5_retry_policy flakyWire).2.1 1 (by decide) (by decide) (by decide)
  · exact (C5_retry_policy downWire).2.2 (by decide)

/-- **C2, counterexample.**  A request listing the same channel twice:
`dispatch` returns one outcome, not two — the results dict is keyed by
channel name, so the duplicate overwrites. -/
theorem C2_duplicate_channels_counterexample :
    (sendNotification exampleProviders 0
        { event := .order_placed
          channels := [.email, .email]
          recipient := "a@x.com"
          data := [] }).results.length = 1 ∧
    [NotificationChannel.email, NotificationChannel.email].length = 2 :=
  ⟨rfl, rfl⟩

/-- **C2 (amended).**  `dispatch` returns exactly one outcome per distinct
requested channel: every requested channel has an outcome, every outcome
key comes from a requested channel, keys are pairwise distinct, and when
the N requested channels are pairwise distinct there are exactly N
outcomes, one per requested channel. -/
theorem C2_one_outcome_per_distinct_channel (P : ProvidersMap) (now : Time)
    (req : NotificationRequest) :
    (∀ c ∈ req.channels,
        (dlookup c.value (sendNotification P now req).results).isSome = true) ∧
    (∀ k ∈ (sendNotification P now req).results.map Prod.fst,
        ∃ c ∈ req.channels, c.value = k) ∧
    ((sendNotification P now req).results.map Prod.fst).Nodup ∧
    ((req.channels.map (fun c => c.value)).Nodup →
        (sendNotification P now req).results.length = req.channels.length) := by
  refine ⟨?_, ?_, ?_, ?_⟩
  · intro c hc
    show (dlookup c.value (sendLoop P req.channels [])).isSome = true
    rw [dlookup_sendLoop]
    have hmem : c ∈ req.channels.filter (fun x => x.value == c.value) := by
      rw [List.mem_filter]
      exact ⟨hc, by simp⟩
    have hne : req.channels.filter (fun x => x.value == c.value) ≠ [] := by
      intro hnil
      rw [hnil] at hmem
      simp at hmem
    cases hg : (req.channels.filter (fun x => x.value == c.value)).getLast? with
    | none =>
      exfalso
      have := List.getLast?_isSome.mpr hne
      rw [hg] at this
      simp at this
    | some c' => simp
  · intro k hk
    have := (sendLoop_map_fst_mem P k req.channels []).mp hk
    simpa using this
  · exact sendLoop_map_fst_nodup P req.channels [] (by simp)
  · intro hnd
    have := sendLoop_length_nodup P req.channels [] hnd (by simp)
    simpa using this

/-- **C2, witness.**  Two distinct requested channels produce exactly two
outcomes. -/
theorem C2_one_outcome_per_distinct_channel_witness :
    (sendNotification exampleProviders 0
        { event := .order_placed
          channels := [.email, .whatsapp]
          recipient := "a@x.com"
          data := [] }).results.length =
      [NotificationChannel.email, NotificationChannel.whatsapp].length :=
  (C2_one_outcome_per_distinct_channel exampleProviders 0
      { event := .order_placed
        channels := [.email, .whatsapp]
        recipient := "a@x.com"
        data := [] }).2.2.2 (by decide)

/-- **C6, counterexample.**  The diagnostic `send_notification` records for
an unregistered channel is the string "Provider not available" (capital P),
not "provider not available" as the claim quotes it. -/
theorem C6_diagnostic_spelling_counterexample :
    dlookup "push"
        (sendNotification exampleProviders 0
          { event := .order_placed
            channels := [.push]
            recipient := "a@x.com"
            data := [] }).results =
      some { status := "failed", error := some "Provider not available" } ∧
    some ({ status := "failed", error := some "Provider not available" } :
        ProviderResult) ≠
      some ({ status := "failed", error := some "provider not available" } :
        ProviderResult) :=
  ⟨rfl, by decide⟩

/-- **C6 (amended).**  For every requested channel `c` with no registered
provider (appearing anywhere in the channel list), `dispatch` records the
outcome `failed` with diagnostic "Provider not available" for `c` and
continues: the outcome recorded under every other channel key is exactly
what it would be had `c` not been requested. -/
theorem C6_missing_provider_isolated (P : ProvidersMap) (now : Time)
    (ev : NotificationEvent) (rcpt : String) (dat : List (String × String))
    (prio : NotificationPriority) (xs ys : List NotificationChannel)
    (c : NotificationChannel) (hP : P c = none) :
    dlookup c.value
        (sendNotification P now
          { event := ev, channels := xs ++ c :: ys, recipient := rcpt
            data := dat, priority := prio }).results =
      some { status := "failed", error := some "Provider not available" } ∧
    ∀ k, k ≠ c.value →
      dlookup k
          (sendNotification P now
            { event := ev, channels := xs ++ c :: ys, recipient := rcpt
              data := dat, priority := prio }).results =
        dlookup k
          (sendNotification P now
            { event := ev, channels := xs ++ ys, recipient := rcpt
              data := dat, priority := prio }).results := by
  constructor
  · show dlookup c.value (sendLoop P (xs ++ c :: ys) []) = _
    rw [dlookup_sendLoop]
    have hmem : c ∈ (xs ++ c :: ys).filter (fun x => x.value == c.value) := by
      rw [List.mem_filter]
      exact ⟨by simp, by simp⟩
    have hne : (xs ++ c :: ys).filter (fun x => x.value == c.value) ≠ [] := by
      intro hnil
      rw [hnil] at hmem
      simp at hmem
    cases hg : ((xs ++ c :: ys).filter (fun x => x.value == c.value)).getLast? with
    | none =>
      exfalso
      have := List.getLast?_isSome.mpr hne
      rw [hg] at this
      simp at this
    | some c' =>
      have hx : c' ∈ ((xs ++ c :: ys).filter (fun x => x.value == c.value)).getLast? :=
        Option.mem_def.mpr hg
      obtain ⟨hne', he⟩ := List.mem_getLast?_eq_getLast hx
      have hc' : c' ∈ (xs ++ c :: ys).filter (fun x => x.value == c.value) := by
        rw [he]
        exact List.getLast_mem hne'
      have hv : c'.value = c.value := by
        have := (List.mem_filter.mp hc').2
        simpa using this
      have hcc : c' = c := NotificationChannel.value_inj c' c hv
      subst hcc
      simp [chanResult, hP]
  · intro k hk
    show dlookup k (sendLoop P (xs ++ c :: ys) []) =
      dlookup k (sendLoop P (xs ++ ys) [])
    rw [dlookup_sendLoop, dlookup_sendLoop]
    have hcv : (c.value == k) = false := by
      simp only [beq_eq_false_iff_ne, ne_eq]
      intro h
      exact hk h.symm
    have hfe : (xs ++ c :: ys).filter (fun x => x.value == k) =
        (xs ++ ys).filter (fun x => x.value == k) := by
      rw [List.filter_append, List.filter_append, List.filter_cons, hcv]
      simp
    rw [hfe]

/-- **C6, witness.**  With `push` unregistered, a request for
`[email, push]` records the missing-provider outcome under "push" and the
same "email" outcome as a request for `[email]` alone. -/
theorem C6_missing_provider_isolated_witness :
    dlookup "push"
        (sendNotification exampleProviders 0
          { event := .order_placed, channels := [.email, .push]
            recipient := "a@x.com", data := [], priority := .medium }).results =
      some { status := "failed", error := some "Provider not available" } ∧
    dlookup "email"
        (sendNotification exampleProviders 0
          { event := .order_placed, channels := [.email, .push]
            recipient := "a@x.com", data := [], priority := .medium }).results =
      dlookup "email"
        (sendNotification exampleProviders 0
          { event := .order_placed, channels := [.email]
            recipient := "a@x.com", data := [], priority := .medium }).results := by
  have h := C6_missing_provider_isolated exampleProviders 0 .order_placed
    "a@x.com" [] .medium [.email] [] .push rfl
  exact ⟨h.1, h.2 "email" (by decide)⟩

/-- **C1.**  Evaluating the sweep's per-entry body at a due entry whose
dispatch outcome is `failed` (its channel `push` has no registered
provider): the code never inspects the dispatch result, so contrary to the
claim the entry is marked `sent` with `processed_at` set, its retry count
and error stay untouched, and the appended log has status `sent`. -/
theorem C1_failed_dispatch_marked_sent :
    isDue pushQueueEntry 5 = true ∧
    dlookup "push"
        (processDueEntry exampleProviders pushQueueEntry 5).2.2.results =
      some { status := "failed", error := some "Provider not available" } ∧
    (processDueEntry exampleProviders pushQueueEntry 5).1.status =
      NotificationStatus.sent ∧
    (processDueEntry exampleProviders pushQueueEntry 5).1.processed_at = some 5 ∧
    (processDueEntry exampleProviders pushQueueEntry 5).1.retry_count = 0 ∧
    (processDueEntry exampleProviders pushQueueEntry 5).1.error_message = none ∧
    (processDueEntry exampleProviders pushQueueEntry 5).2.1.status =
      NotificationStatus.sent :=
  ⟨rfl, rfl, rfl, rfl, rfl, rfl, rfl⟩

/-- **C7.**  A queue entry in status `sent` is never due (the sweep's
selection picks only `scheduled` entries whose scheduled time has passed),
is not in the sweep's query result, and passes through a sweep pass
untouched, with no dispatch and no log appended for it. -/
theorem C7_sent_never_redispatched (P : ProvidersMap)
    (entries : List NotificationQueue) (now : Time) (e : NotificationQueue)
    (he : e ∈ entries) (hs : e.status = NotificationStatus.sent) :
    isDue e now = false ∧
    e ∉ dueEntries entries now ∧
    (e, (none : Option NotificationLog)) ∈ processPass P entries now := by
  have hdue : isDue e now = false := by
    simp [isDue, hs]
  refine ⟨hdue, ?_, ?_⟩
  · intro hmem
    rw [dueEntries, List.mem_filter] at hmem
    rw [hdue] at hmem
    exact absurd hmem.2 (by simp)
  · rw [processPass]
    refine List.mem_map.mpr ⟨e, he, ?_⟩
    rw [hdue]
    simp

/-- **C7, witness.**  A concrete `sent` entry is untouched by a sweep pass. -/
theorem C7_sent_never_redispatched_witness :
    isDue sentQueueEntry 10 = false ∧
    sentQueueEntry ∉ dueEntries [sentQueueEntry] 10 ∧
    (sentQueueEntry, (none : Option NotificationLog)) ∈
      processPass exampleProviders [sentQueueEntry] 10 :=
  C7_sent_never_redispatched exampleProviders [sentQueueEntry] 10 sentQueueEntry
    (List.mem_singleton.mpr rfl) rfl

/-- **C8.**  The sweep's purge step, applied after the processing pass to
the whole store: every entry whose expiry time is strictly before `now` is
deleted regardless of its status, an entry with no expiry time is never
purged, and the sweep's surviving store is exactly the purge of the
processed store. -/
theorem C8_purge_expired (l : List NotificationQueue) (now : Time)
    (e : NotificationQueue) (he : e ∈ l) :
    ((∃ t, e.expires_at = some t ∧ t < now) → e ∉ purgeExpired l now) ∧
    (e.expires_at = none → e ∈ purgeExpired l now) ∧
    (∀ (P : ProvidersMap) (entries : List NotificationQueue),
      (processQueue P entries now).1 =
        purgeExpired ((processPass P entries now).map Prod.fst) now) := by
  refine ⟨?_, ?_, fun P entries => rfl⟩
  · rintro ⟨t, het, hlt⟩ hmem
    rw [purgeExpired, List.mem_filter] at hmem
    have h2 := hmem.2
    rw [het] at h2
    simp [hlt] at h2
  · intro hnone
    rw [purgeExpired, List.mem_filter]
    refine ⟨he, ?_⟩
    rw [hnone]

/-- **C8, witness.**  A `sent` entry expired at t = 10 is purged; a `sent`
entry with no expiry survives the purge. -/
theorem C8_purge_expired_witness :
    expiredSentEntry ∉ purgeExpired [expiredSentEntry, sentQueueEntry] 10 ∧
    sentQueueEntry ∈ purgeExpired [expiredSentEntry, sentQueueEntry] 10 := by
  constructor
  · exact (C8_purge_expired [expiredSentEntry, sentQueueEntry] 10 expiredSentEntry
      (by simp)).1 ⟨4, rfl, by decide⟩
  · exact (C8_purge_expired [expiredSentEntry, sentQueueEntry] 10 sentQueueEntry
      (by simp)).2.1 rfl

/-- **C4.**  For a submitted request with a non-empty channel list: a
`scheduled_at` strictly after `now` inserts exactly one queue document, in
status `scheduled`, with no immediate dispatch; an absent `scheduled_at`,
or one at or before `now`, inserts no queue document and dispatches
immediately. -/
theorem C4_scheduling_decision (req : NotificationRequest) (now : Time)
    (hch : req.channels ≠ []) :
    (∀ t, req.scheduled_at = some t → now < t →
      ∃ e, send_notification_route req now =
          .ok { response := scheduledResponse, queued := some e
                dispatched := false } ∧
        e.status = NotificationStatus.scheduled) ∧
    ((req.scheduled_at = none ∨ ∃ t, req.scheduled_at = some t ∧ ¬ now < t) →
      send_notification_route req now = .ok immediateRouteEffect ∧
      immediateRouteEffect.queued = none ∧
      immediateRouteEffect.dispatched = true) := by
  constructor
  · intro t ht hlt
    obtain ⟨c, rest, hcs⟩ := List.exists_cons_of_ne_nil hch
    refine ⟨{ event := req.event, channel := c, recipient := req.recipient
              priority := req.priority, data := req.data
              scheduled_at := t, created_at := now }, ?_, rfl⟩
    simp only [send_notification_route, ht, hcs]
    rw [if_pos hlt]
  · rintro (hnone | ⟨t, ht, hnlt⟩)
    · refine ⟨?_, rfl, rfl⟩
      simp only [send_notification_route, hnone]
    · refine ⟨?_, rfl, rfl⟩
      simp only [send_notification_route, ht]
      rw [if_neg hnlt]

/-- **C4, witness.**  A request scheduled for t = 10 submitted at t = 5 is
queued in status `scheduled` without dispatch; the same request with no
schedule is dispatched immediately with no queue insert. -/
theorem C4_scheduling_decision_witness :
    (∃ e, send_notification_route
        { event := .order_placed, channels := [.email], recipient := "a@x.com"
          data := [("order_id", "O1")], priority := .medium
          scheduled_at := some 10 } 5 =
        .ok { response := scheduledResponse, queued := some e
              dispatched := false } ∧
      e.status = NotificationStatus.scheduled) ∧
    send_notification_route
        { event := .order_placed, channels := [.email], recipient := "a@x.com"
          data := [("order_id", "O1")], priority := .medium } 5 =
      .ok immediateRouteEffect := by
  constructor
  · exact (C4_scheduling_decision
      { event := .order_placed, channels := [.email], recipient := "a@x.com"
        data := [("order_id", "O1")], priority := .medium
        scheduled_at := some 10 } 5 (by decide)).1 10 rfl (by decide)
  · exact ((C4_scheduling_decision
      { event := .order_placed, channels := [.email], recipient := "a@x.com"
        data := [("order_id", "O1")], priority := .medium } 5
      (by decide)).2 (Or.inl rfl)).1

/-- **C10.**  When a multi-channel request is scheduled for the future, the
single queue document stores only the first channel; the request the sweep
later builds from that document carries exactly that one channel, so the
remaining channels are neither queued nor ever dispatched for this
request. -/
theorem C10_only_first_channel_queued (req : NotificationRequest) (now : Time)
    (c : NotificationChannel) (rest : List NotificationChannel)
    (hcs : req.channels = c :: rest) (t : Time) (ht : req.scheduled_at = some t)
    (hlt : now < t) :
    ∃ e, send_notification_route req now =
        .ok { response := scheduledResponse, queued := some e
              dispatched := false } ∧
      e.channel = c ∧
      (queueServiceRequest e).channels = [c] ∧
      ∀ c', c' ∈ rest → c' ≠ c → c' ∉ (queueServiceRequest e).channels := by
  refine ⟨{ event := req.event, channel := c, recipient := req.recipient
            priority := req.priority, data := req.data
            scheduled_at := t, created_at := now }, ?_, rfl, rfl, ?_⟩
  · simp only [send_notification_route, ht, hcs]
    rw [if_pos hlt]
  · intro c' _ hne
    simp [queueServiceRequest, hne]

/-- **C10, witness.**  Scheduling a request for `[email, whatsapp, sms]`
queues one document holding only `email`; the sweep's rebuilt request
contains `email` alone. -/
theorem C10_only_first_channel_queued_witness :
    ∃ e, send_notification_route
        { event := .order_placed
          channels := [.email, .whatsapp, .sms]
          recipient := "a@x.com", data := [], priority := .high
          scheduled_at := some 10 } 5 =
        .ok { response := scheduledResponse, queued := some e
              dispatched := false } ∧
      e.channel = NotificationChannel.email ∧
      (queueServiceRequest e).channels = [NotificationChannel.email] ∧
      ∀ c', c' ∈ [NotificationChannel.whatsapp, NotificationChannel.sms] →
        c' ≠ NotificationChannel.email →
        c' ∉ (queueServiceRequest e).channels :=
  C10_only_first_channel_queued
    { event := .order_placed
      channels := [.email, .whatsapp, .sms]
      recipient := "a@x.com", data := [], priority := .high
      scheduled_at := some 10 } 5 .email [.whatsapp, .sms] rfl 10 rfl (by decide)

/-- **C3, counterexample.**  A request with an empty channel list and an
empty recipient string passes model validation and is dispatched
immediately — it is not rejected before dispatch. -/
theorem C3_empty_fields_accepted_counterexample :
    (∃ req, parseNotificationRequest
        { event := some .contact_form, channels := some []
          recipient := some "", data := some []
          priority := none, scheduled_at := none } = .ok req) ∧
    sendEndpoint
        { event := some .contact_form, channels := some []
          recipient := some "", data := some []
          priority := none, scheduled_at := none } 0 =
      .ok immediateRouteEffect ∧
    immediateRouteEffect.dispatched = true :=
  ⟨⟨_, rfl⟩, rfl, rfl⟩

/-- **C3 (amended).**  Only a request missing a required field (recipient
or channels absent from the body) is rejected by model validation before
the handler — and hence before any dispatch — with a client-visible
validation error; an empty channel list or empty recipient string is
accepted and dispatched. -/
theorem C3_missing_field_rejected (raw : RawNotificationRequest) (now : Time)
    (h : raw.recipient = none ∨ raw.channels = none) :
    sendEndpoint raw now = .error "field required" := by
  have hp : parseNotificationRequest raw = .error "field required" := by
    unfold parseNotificationRequest
    rcases h with h | h <;>
      rcases hev : raw.event with _ | ev <;>
        rcases hch : raw.channels with _ | chs <;>
          rcases hrc : raw.recipient with _ | r <;>
            simp_all
  simp [sendEndpoint, hp]

/-- **C3, witness.**  A body with no recipient field is rejected before the
handler runs. -/
theorem C3_missing_field_rejected_witness :
    sendEndpoint
        { event := some .contact_form, channels := some [.email]
          recipient := none, data := some []
          priority := none, scheduled_at := none } 0 =
      .error "field required" :=
  C3_missing_field_rejected
    { event := some .contact_form, channels := some [.email]
      recipient := none, data := some []
      priority := none, scheduled_at := none } 0 (Or.inl rfl)

/-- **C9.**  For each provider (email, WhatsApp, SMS) and every transport
behaviour and request: a single delivery attempt never lets an exception
escape the provider boundary (`send` always returns a result dict), and
when the `try` body raises with text `e` the returned dict is the `failed`
outcome with `e` as its diagnostic. -/
theorem C9_provider_boundary :
    (∀ (fx : EmailEffects) (req : NotificationRequest),
      (∃ r, emailSend fx req = .ok r) ∧
      ∀ e, emailBody fx req = .error e →
        emailSend fx req =
          .ok { status := "failed", error := some e, provider := some "email" }) ∧
    (∀ (fx : WhatsAppEffects) (req : NotificationRequest),
      (∃ r, whatsappSend fx req = .ok r) ∧
      ∀ e, whatsappBody fx req = .error e →
        whatsappSend fx req =
          .ok { status := "failed", error := some e, provider := some "whatsapp" }) ∧
    (∀ (fx : SMSEffects) (req : NotificationRequest),
      (∃ r, smsSend fx req = .ok r) ∧
      ∀ e, smsBody fx req = .error e →
        smsSend fx req =
          .ok { status := "failed", error := some e, provider := some "sms" }) := by
  refine ⟨fun fx req => ⟨?_, ?_⟩, fun fx req => ⟨?_, ?_⟩, fun fx req => ⟨?_, ?_⟩⟩
  · rw [emailSend]
    cases emailBody fx req with
    | ok r => exact ⟨r, rfl⟩
    | error e => exact ⟨_, rfl⟩
  · intro e he
    rw [emailSend, he]
  · rw [whatsappSend]
    cases whatsappBody fx req with
    | ok r => exact ⟨r, rfl⟩
    | error e => exact ⟨_, rfl⟩
  · intro e he
    rw [whatsappSend, he]
  · rw [smsSend]
    cases smsBody fx req with
    | ok r => exact ⟨r, rfl⟩
    | error e => exact ⟨_, rfl⟩
  · intro e he
    rw [smsSend, he]

/-- **C9, witness.**  Concrete raising transports: each provider converts
the raised exception into a `failed` dict carrying the exception text. -/
theorem C9_provider_boundary_witness :
    emailSend
        { render := .ok { subject := "s", body := "b" }, smtp := .error "smtp down" }
        { event := .order_placed, channels := [.email], recipient := "a@x.com"
          data := [] } =
      .ok { status := "failed", error := some "smtp down"
            provider := some "email" } ∧
    whatsappSend { post := .error "http 500" }
        { event := .order_placed, channels := [.whatsapp], recipient := "a@x.com"
          data := [] } =
      .ok { status := "failed", error := some "http 500"
            provider := some "whatsapp" } ∧
    smsSend { gateway := .error "gateway closed" }
        { event := .order_placed, channels := [.sms], recipient := "a@x.com"
          data := [] } =
      .ok { status := "failed", error := some "gateway closed"
            provider := some "sms" } :=
  ⟨(C9_provider_boundary.1
      { render := .ok { subject := "s", body := "b" }, smtp := .error "smtp down" }
      { event := .order_placed, channels := [.email], recipient := "a@x.com"
        data := [] }).2 "smtp down" rfl,
   (C9_provider_boundary.2.1 { post := .error "http 500" }
      { event := .order_placed, channels := [.whatsapp], recipient := "a@x.com"
        data := [] }).2 "http 500" rfl,
   (C9_provider_boundary.2.2 { gateway := .error "gateway closed" }
      { event := .order_placed, channels := [.sms], recipient := "a@x.com"
        data := [] }).2 "gateway closed" rfl⟩
